import Mathlib

/-!
# pvcast — formalisation of the spec's claims over a shallow embedding

The repository's configuration files (`src/unnamed/part_005`, `src/unnamed/part_006`)
define the plant topology and weather-source configuration; the behavioural core
(weather aggregation, irradiance/power model, cache, forecast entry point) is not
present in the source tree, so those parts are modelled from the spec, each such
definition marked `Modelled from the spec:`.

Power values are rationals (watts); timestamps are naturals (seconds since epoch).
-/

namespace PVCast

/-! ## Plant topology data model (from the YAML configuration files) -/

/-- A PV array as configured under `plant[].arrays` in
`src/unnamed/part_005` and `src/unnamed/part_006`: name, tilt, azimuth,
modules-per-string, number of strings, module model identifier. -/
structure ArrayConfig where
  name : String
  tilt : ℚ
  azimuth : ℚ
  modules_per_string : ℕ
  strings : ℕ
  module : String
deriving DecidableEq, Repr

/-- A plant as configured under `plant` in `src/unnamed/part_005` and
`src/unnamed/part_006`: a name, a single inverter model identifier (the
`inverter:` key is a scalar, not a list), a microinverter flag, and an
ordered list of arrays. -/
structure PlantConfig where
  name : String
  inverter : String
  microinverter : Bool
  arrays : List ArrayConfig
deriving DecidableEq, Repr

/-- The list of inverter identifiers a configured plant carries.  The
configuration schema has exactly one `inverter:` scalar per plant, so this is
always a singleton. -/
def PlantConfig.inverterIds (p : PlantConfig) : List String := [p.inverter]

/-- A weather source entry under `general.weather.sources`. -/
structure SourceConfig where
  name : String
  type : String
deriving DecidableEq, Repr

/-- The `general.weather` section: the forecast-window bound and the ordered
source list (declaration order is the reconciliation priority). -/
structure WeatherConfig where
  max_forecast_days : ℕ
  sources : List SourceConfig
deriving DecidableEq, Repr

/-- The plant list of `src/unnamed/part_006`. -/
def config6Plants : List PlantConfig :=
  [⟨"EastWest", "SolarEdge_Technologies_Ltd___SE4000__240V_", false,
    [⟨"East", 30, 90, 4, 1, "Trina_Solar_TSM_330DD14A_II_"⟩,
     ⟨"West", 30, 270, 8, 1, "Trina_Solar_TSM_330DD14A_II_"⟩]⟩,
   ⟨"South", "SolarEdge_Technologies_Ltd___SE4000__240V_", false,
    [⟨"South", 30, 180, 16, 1, "Trina_Solar_TSM_330DD14A_II_"⟩]⟩,
   ⟨"MicroMixed", "Enphase_Energy_Inc___IQ7X_96_x_ACM_US__240V_", true,
    [⟨"zone_1_schuin", 30, 90, 5, 1, "JA_Solar_JAM72S01_385_PR"⟩,
     ⟨"zone_2_plat", 15, 160, 8, 1, "JA_Solar_JAM72S01_385_PR"⟩]⟩,
   ⟨"home", "SolarEdge_Technologies_Ltd___SE4000__240V_", false,
    [⟨"NE", 23, 44, 4, 1, "Trina_Solar_TSM_330DD14A_II_"⟩,
     ⟨"SW", 23, 224, 8, 1, "Trina_Solar_TSM_330DD14A_II_"⟩]⟩]

/-- The plant list of `src/unnamed/part_005`. -/
def config5Plants : List PlantConfig :=
  [⟨"EastWest", "SolarEdge_Technologies_Ltd___SE4000__240V_", false,
    [⟨"East", 30, 90, 4, 1, "Trina_Solar_TSM_330DD14A_II_"⟩,
     ⟨"West", 30, 270, 8, 1, "Trina_Solar_TSM_330DD14A_II_"⟩]⟩,
   ⟨"NorthSouth", "SolarEdge_Technologies_Ltd___SE4000__240V_", false,
    [⟨"North", 30, 0, 4, 1, "Trina_Solar_TSM_330DD14A_II_"⟩,
     ⟨"South", 30, 180, 8, 1, "Trina_Solar_TSM_330DD14A_II_"⟩]⟩]

/-- The `general.weather` section of `src/unnamed/part_006`:
`max_forecast_days: 7` and two sources in declaration order. -/
def config6Weather : WeatherConfig :=
  ⟨7, [⟨"HomeAssistant", "homeassistant"⟩, ⟨"ClearOutside", "clearoutside"⟩]⟩

/-- The `general.weather` section of `src/unnamed/part_005`:
`max_forecast_days: 7` and a single clearoutside source. -/
def config5Weather : WeatherConfig := ⟨7, [⟨"CO", "clearoutside"⟩]⟩

/-! ## Inverter model and DC→AC conversion -/

/-- Modelled from the spec: the inverter's electrical model (§3 Inverter,
§4.4).  It carries the rated nameplate AC capacity, the efficiency curve
mapping array/bus DC watts to pre-clip AC watts (the concrete curve comes from
the inverter model database, outside this core, so it is kept abstract as a
function), and the microinverter flag. -/
structure InverterModel where
  ratedAc : ℚ
  effCurve : ℚ → ℚ
  isMicroinverter : Bool

/-- Modelled from the spec (§4.4): DC→AC conversion through the inverter's
efficiency/clipping curve — the pre-clip AC value `effCurve dc` saturated at
the rated nameplate AC capacity. -/
def acOutput (inv : InverterModel) (dc : ℚ) : ℚ :=
  min (inv.effCurve dc) inv.ratedAc

/-- Modelled from the spec (§4.5 Aggregation Engine): inverter-level AC power
from the per-array DC powers at one timestep.  A string inverter sums the DC
powers on the shared bus first and applies the efficiency/clipping step once;
a microinverter converts each array independently and sums the already-clipped
AC values. -/
def inverterAcPower (inv : InverterModel) (arrayDc : List ℚ) : ℚ :=
  if inv.isMicroinverter then (arrayDc.map (acOutput inv)).sum
  else acOutput inv arrayDc.sum

/-- A concrete inverter for witnesses: identity efficiency, clipping above
1800 W AC (the spec's §8 aggregation example). -/
def invClip1800 : InverterModel := ⟨1800, fun dc => dc, false⟩

/-- **C1.** For every inverter model with a monotone efficiency curve and every
pair of DC inputs, the DC→AC conversion is monotonic (a larger DC input never
yields a smaller reported AC output), the reported AC output never exceeds the
rated nameplate AC capacity for any input (clipping enforced), and whenever the
pre-clip value is within the rated capacity the reported output equals the
pre-clip value exactly (output is only ever reduced by clipping at the cap). -/
theorem ac_conversion_monotone_clipped (inv : InverterModel) (d1 d2 : ℚ)
    (hmono : Monotone inv.effCurve) (hd : d1 ≤ d2) :
    acOutput inv d1 ≤ acOutput inv d2 ∧
    acOutput inv d2 ≤ inv.ratedAc ∧
    (inv.effCurve d2 ≤ inv.ratedAc → acOutput inv d2 = inv.effCurve d2) := by
  refine ⟨min_le_min (hmono hd) le_rfl, min_le_right _ _, fun hle => min_eq_left hle⟩

/-- Witness for C1 at the concrete inverter `invClip1800` and DC inputs
100 W ≤ 200 W. -/
theorem ac_conversion_monotone_clipped_witness :
    acOutput invClip1800 100 ≤ acOutput invClip1800 200 ∧
    acOutput invClip1800 200 ≤ invClip1800.ratedAc ∧
    (invClip1800.effCurve 200 ≤ invClip1800.ratedAc →
      acOutput invClip1800 200 = invClip1800.effCurve 200) :=
  ac_conversion_monotone_clipped invClip1800 100 200 (fun _ _ h => h) (by norm_num)

/-- **C2.** For every string inverter (`isMicroinverter = false`) and every
list of per-array DC powers at a timestep, the inverter AC power is the
efficiency/clipping step applied exactly once to the *sum* of the array DC
powers on the shared bus — never per array. -/
theorem string_inverter_clips_after_sum (inv : InverterModel) (arrayDc : List ℚ)
    (hstring : inv.isMicroinverter = false) :
    inverterAcPower inv arrayDc = acOutput inv arrayDc.sum := by
  simp [inverterAcPower, hstring]

/-- Witness for C2, the spec's §8 example: two arrays producing 1200 W and
900 W DC under a string inverter clipping above 1800 W AC report exactly
1800 W at the inverter, not 2100 W. -/
theorem string_inverter_clips_after_sum_witness :
    inverterAcPower invClip1800 [1200, 900] = 1800 ∧
    inverterAcPower invClip1800 [1200, 900] ≠ 2100 := by
  have h := string_inverter_clips_after_sum invClip1800 [1200, 900] rfl
  rw [h]
  constructor
  · simp only [acOutput, invClip1800]
    norm_num
  · simp only [acOutput, invClip1800]
    norm_num

/-! ## Weather records, series and sources -/

/-- Modelled from the spec (§3 WeatherRecord): one timestep's observation with
a sparse set of variables — missing fields are explicit `none`, never silently
zero. -/
structure WeatherRecord where
  timestamp : ℕ
  ghi : Option ℚ
  temperature : Option ℚ
deriving DecidableEq, Repr

/-- Modelled from the spec (§3 WeatherSeries): a source-tagged sequence of
weather records. -/
structure WeatherSeries where
  source : String
  records : List WeatherRecord
deriving DecidableEq, Repr

/-- Modelled from the spec (§4.3): a weather source as the reconciliation step
sees it — a name and a partial map from (timestep, variable name) to a value;
`none` means the source does not supply that variable at that timestep. -/
structure WeatherSource where
  name : String
  value : ℕ → String → Option ℚ

/-- Modelled from the spec (§4.3 step 3–4): per-timestep, per-variable
reconciliation over the priority-ordered source list.  The first source in
declaration order that supplies the variable at the timestep wins; its value
is returned together with the provenance (the winning source's name).  If no
source supplies the variable the field is left unset (`none`). -/
def reconcileVar (sources : List WeatherSource) (t : ℕ) (v : String) :
    Option (ℚ × String) :=
  match sources with
  | [] => none
  | s :: rest =>
    match s.value t v with
    | some x => some (x, s.name)
    | none => reconcileVar rest t v

/-- **C3.** For every priority-ordered source list, timestep and variable: if
the source at priority rank `i` supplies the variable at that timestep and
every higher-priority source (rank `j < i`) lacks it, reconciliation selects
exactly rank `i`'s value, with provenance recording that source's name. -/
theorem reconcile_priority_order (sources : List WeatherSource) (t : ℕ)
    (v : String) (i : ℕ) (hi : i < sources.length) (x : ℚ)
    (hsup : (sources.get ⟨i, hi⟩).value t v = some x)
    (habove : ∀ j (hj : j < sources.length), j < i →
      (sources.get ⟨j, hj⟩).value t v = none) :
    reconcileVar sources t v = some (x, (sources.get ⟨i, hi⟩).name) := by
  induction sources generalizing i with
  | nil => exact absurd hi (Nat.not_lt_zero i)
  | cons s rest ih =>
    match i with
    | 0 =>
      simp only [List.get] at hsup ⊢
      simp [reconcileVar, hsup]
    | Nat.succ n =>
      have h0 : s.value t v = none :=
        habove 0 (Nat.succ_pos _) (Nat.succ_pos n)
      have hn : n < rest.length := Nat.lt_of_succ_lt_succ hi
      have hr := ih n hn
        (by simpa using hsup)
        (fun j hj hlt =>
          habove (j + 1) (Nat.succ_lt_succ hj) (Nat.succ_lt_succ hlt))
      simp only [List.get] at hr ⊢
      simpa [reconcileVar, h0] using hr

/-- Source A for the C3 witness: supplies irradiance (500) but not
temperature at timestep 12. -/
def sourceA : WeatherSource :=
  ⟨"A", fun t v =>
    if t = 12 then (if v = "irradiance" then some 500 else none) else none⟩

/-- Source B for the C3 witness: supplies both irradiance (480) and
temperature (11) at timestep 12. -/
def sourceB : WeatherSource :=
  ⟨"B", fun t v =>
    if t = 12 then
      (if v = "irradiance" then some 480
       else if v = "temperature" then some 11 else none)
    else none⟩

/-- Witness for C3, the spec's §8 scenario: with preferred source A supplying
irradiance but not temperature at 12:00 and source B supplying both, the
reconciled record uses A's irradiance and B's temperature, with matching
provenance. -/
theorem reconcile_priority_order_witness :
    reconcileVar [sourceA, sourceB] 12 "irradiance" = some (500, "A") ∧
    reconcileVar [sourceA, sourceB] 12 "temperature" = some (11, "B") := by
  constructor
  · exact reconcile_priority_order [sourceA, sourceB] 12 "irradiance" 0
      (by norm_num) 500 (by decide)
      (fun j hj hlt => absurd hlt (Nat.not_lt_zero j))
  · exact reconcile_priority_order [sourceA, sourceB] 12 "temperature" 1
      (by norm_num) 11 (by decide)
      (fun j hj hlt => by
        have hj0 : j = 0 := Nat.lt_one_iff.mp hlt
        subst hj0
        show sourceA.value 12 "temperature" = none
        decide)

/-! ## Error taxonomy and source aggregation -/

/-- Modelled from the spec (§7): the typed failures the forecast run can
surface. -/
inductive ForecastError where
  | sourceUnavailable : String → ForecastError
  | allSourcesFailed : ForecastError
  | horizonOutOfRange : ForecastError
deriving DecidableEq, Repr

/-- Whether a per-source fetch result succeeded. -/
def fetchSucceeded (r : Except ForecastError WeatherSeries) : Bool :=
  r.toOption.isSome

/-- Modelled from the spec (§4.3 step 1, §7): collect the per-source fetch
results of one forecast run.  A per-source failure is recorded (dropped from
the successful list) and is non-fatal; if and only if every source failed, the
run aborts with the `allSourcesFailed` typed failure, carrying no result at
all. -/
def collectSources (results : List (Except ForecastError WeatherSeries)) :
    Except ForecastError (List WeatherSeries) :=
  let ok := results.filterMap Except.toOption
  if ok.isEmpty then Except.error ForecastError.allSourcesFailed
  else Except.ok ok

/-- **C4.** For every list of per-source fetch results: the run surfaces the
`allSourcesFailed` typed failure if and only if every configured source
failed; and as soon as at least one source succeeds, the run produces a
(non-empty) result — per-source failures are non-fatal.  In the failure case
the `Except.error` constructor carries no series list, so no partial
`ForecastResult` can be produced. -/
theorem all_sources_failed_iff (results : List (Except ForecastError WeatherSeries)) :
    (collectSources results = Except.error ForecastError.allSourcesFailed ↔
      ∀ r ∈ results, fetchSucceeded r = false) ∧
    ((∃ r ∈ results, fetchSucceeded r = true) →
      ∃ ls, collectSources results = Except.ok ls ∧ ls ≠ []) := by
  have hempty : (results.filterMap Except.toOption).isEmpty = true ↔
      ∀ r ∈ results, fetchSucceeded r = false := by
    rw [List.isEmpty_iff, List.filterMap_eq_nil_iff]
    constructor
    · intro h r hr
      simp [fetchSucceeded, h r hr]
    · intro h r hr
      have hfs := h r hr
      cases hopt : r.toOption with
      | none => rfl
      | some s => simp [fetchSucceeded, hopt] at hfs
  constructor
  · constructor
    · intro h
      rw [← hempty]
      by_contra hne
      simp only [collectSources, hne] at h
      cases h
    · intro h
      have : (results.filterMap Except.toOption).isEmpty = true := hempty.mpr h
      simp [collectSources, this]
  · intro ⟨r, hr, hsucc⟩
    have hne : (results.filterMap Except.toOption).isEmpty = false := by
      by_contra hcon
      have : (results.filterMap Except.toOption).isEmpty = true := by
        revert hcon
        cases (results.filterMap Except.toOption).isEmpty <;> simp
      exact absurd ((hempty.mp this) r hr) (by simp [hsucc])
    refine ⟨results.filterMap Except.toOption, by simp [collectSources, hne], ?_⟩
    intro hnil
    rw [← List.isEmpty_iff] at hnil
    rw [hnil] at hne
    cases hne

/-- Witness for C4: with the two configured sources of
`src/unnamed/part_006` both failing, the run returns the `allSourcesFailed`
typed failure (and, via the theorem's second conjunct applied at a run where
one source succeeds, a successful source makes the failure non-fatal). -/
theorem all_sources_failed_iff_witness :
    collectSources
      [Except.error (ForecastError.sourceUnavailable "HomeAssistant"),
       Except.error (ForecastError.sourceUnavailable "ClearOutside")] =
      Except.error ForecastError.allSourcesFailed ∧
    (∃ ls, collectSources
      [Except.error (ForecastError.sourceUnavailable "HomeAssistant"),
       Except.ok (WeatherSeries.mk "ClearOutside" [])] =
      Except.ok ls ∧ ls ≠ []) := by
  constructor
  · exact (all_sources_failed_iff _).1.mpr (by intro r hr; fin_cases hr <;> rfl)
  · exact (all_sources_failed_iff _).2
      ⟨Except.ok (WeatherSeries.mk "ClearOutside" []), by simp, rfl⟩

/-! ## Forecast entry point: horizon validation before any network call -/

/-- Modelled from the spec (§4.1 input constraints, §7 HorizonOutOfRange):
the forecast run first validates the requested horizon against the configured
forecast window (`general.weather.max_forecast_days`, 7 in both configuration
files); a horizon beyond the bound is rejected up front.  The second component
counts the outbound network calls the run performed, so "before any network
call" is expressible: a rejected run performs zero. -/
def runForecast (cfg : WeatherConfig) (horizonDays : ℕ)
    (fetch : SourceConfig → Except ForecastError WeatherSeries) :
    Except ForecastError (List WeatherSeries) × ℕ :=
  if cfg.max_forecast_days < horizonDays then
    (Except.error ForecastError.horizonOutOfRange, 0)
  else
    (collectSources (cfg.sources.map fetch), cfg.sources.length)

/-- **C5.** For every configuration and fetch behaviour, a requested horizon
exceeding the configured forecast window of the sources
(`max_forecast_days`) is rejected with the `horizonOutOfRange` typed failure
and zero network calls are attempted. -/
theorem horizon_rejected_before_fetch (cfg : WeatherConfig) (horizonDays : ℕ)
    (fetch : SourceConfig → Except ForecastError WeatherSeries)
    (hover : cfg.max_forecast_days < horizonDays) :
    runForecast cfg horizonDays fetch =
      (Except.error ForecastError.horizonOutOfRange, 0) := by
  simp [runForecast, hover]

/-- Witness for C5, the spec's §8 scenario: a 10-day horizon against the
`src/unnamed/part_006` configuration (both sources capped at 7 days) is
rejected up front with zero network calls. -/
theorem horizon_rejected_before_fetch_witness :
    runForecast config6Weather 10
      (fun s => Except.ok (WeatherSeries.mk s.name [])) =
      (Except.error ForecastError.horizonOutOfRange, 0) :=
  horizon_rejected_before_fetch config6Weather 10 _ (by norm_num [config6Weather])

/-! ## Canonical time grid -/

/-- A time-indexed power/weather series: (timestamp, value) points. -/
structure TimeSeries where
  points : List (ℕ × ℚ)
deriving DecidableEq, Repr

/-- The timestamp sequence of a time series. -/
def TimeSeries.timestamps (ts : TimeSeries) : List ℕ :=
  ts.points.map Prod.fst

/-- Modelled from the spec (§3 ConsolidatedWeather, Glossary): the canonical
time grid — `n` timestamps at a fixed step starting at `start`, covering the
requested horizon. -/
def canonicalGrid (start step n : ℕ) : List ℕ :=
  (List.range n).map (fun i => start + i * step)

/-- Modelled from the spec (§4.4, §4.5): a derived series is computed
pointwise over the canonical grid, so it inherits the grid's timestamps. -/
def seriesOnGrid (grid : List ℕ) (f : ℕ → ℚ) : TimeSeries :=
  ⟨grid.map (fun t => (t, f t))⟩

/-- Modelled from the spec (§3 ForecastResult): the full set of series one
forecast run produces — consolidated weather plus array-, inverter- and
plant-level power series, all built on one grid. -/
structure ForecastRun where
  weather : TimeSeries
  arrayPower : List TimeSeries
  inverterPower : List TimeSeries
  plantPower : TimeSeries
deriving Repr

/-- Modelled from the spec: one forecast run materialises every series by
pointwise evaluation on the same canonical grid. -/
def buildRun (grid : List ℕ) (wf : ℕ → ℚ) (afs ifs : List (ℕ → ℚ))
    (pf : ℕ → ℚ) : ForecastRun :=
  ⟨seriesOnGrid grid wf, afs.map (seriesOnGrid grid),
   ifs.map (seriesOnGrid grid), seriesOnGrid grid pf⟩

/-- **C6.** For every forecast run built on the canonical grid with a positive
step: the grid's timestamps are strictly increasing, the grid has exactly the
requested number of points, and every produced series — weather, each array
series, each inverter series, and the plant series — carries exactly the
grid's timestamp sequence (hence identical timestamps and identical count
across all series of the run). -/
theorem canonical_grid_shared (start step n : ℕ) (wf : ℕ → ℚ)
    (afs ifs : List (ℕ → ℚ)) (pf : ℕ → ℚ) (hstep : 0 < step) :
    List.Pairwise (· < ·) (canonicalGrid start step n) ∧
    (canonicalGrid start step n).length = n ∧
    (buildRun (canonicalGrid start step n) wf afs ifs pf).weather.timestamps =
      canonicalGrid start step n ∧
    (∀ s ∈ (buildRun (canonicalGrid start step n) wf afs ifs pf).arrayPower,
      s.timestamps = canonicalGrid start step n) ∧
    (∀ s ∈ (buildRun (canonicalGrid start step n) wf afs ifs pf).inverterPower,
      s.timestamps = canonicalGrid start step n) ∧
    (buildRun (canonicalGrid start step n) wf afs ifs pf).plantPower.timestamps =
      canonicalGrid start step n := by
  have hts : ∀ f : ℕ → ℚ, (seriesOnGrid (canonicalGrid start step n) f).timestamps =
      canonicalGrid start step n := by
    intro f
    simp only [seriesOnGrid, TimeSeries.timestamps, List.map_map]
    exact (List.map_congr_left (fun t _ => rfl)).trans (List.map_id _)
  refine ⟨?_, ?_, hts wf, ?_, ?_, hts pf⟩
  · have hp : List.Pairwise (· < ·) (List.range n) := List.pairwise_lt_range n
    exact hp.map _ (fun a b hab => by
      have : a * step < b * step := (Nat.mul_lt_mul_right hstep).mpr hab
      omega)
  · simp [canonicalGrid]
  · intro s hs
    simp only [buildRun, List.mem_map] at hs
    obtain ⟨f, _, rfl⟩ := hs
    exact hts f
  · intro s hs
    simp only [buildRun, List.mem_map] at hs
    obtain ⟨f, _, rfl⟩ := hs
    exact hts f

/-- Witness for C6 at a concrete hourly grid of 4 points starting at 0, with
one array series and one inverter series. -/
theorem canonical_grid_shared_witness :
    List.Pairwise (· < ·) (canonicalGrid 0 3600 4) ∧
    (canonicalGrid 0 3600 4).length = 4 ∧
    (buildRun (canonicalGrid 0 3600 4) (fun _ => 0) [fun _ => 1] [fun _ => 2]
      (fun _ => 3)).weather.timestamps = canonicalGrid 0 3600 4 ∧
    (∀ s ∈ (buildRun (canonicalGrid 0 3600 4) (fun _ => 0) [fun _ => 1]
      [fun _ => 2] (fun _ => 3)).arrayPower,
      s.timestamps = canonicalGrid 0 3600 4) ∧
    (∀ s ∈ (buildRun (canonicalGrid 0 3600 4) (fun _ => 0) [fun _ => 1]
      [fun _ => 2] (fun _ => 3)).inverterPower,
      s.timestamps = canonicalGrid 0 3600 4) ∧
    (buildRun (canonicalGrid 0 3600 4) (fun _ => 0) [fun _ => 1] [fun _ => 2]
      (fun _ => 3)).plantPower.timestamps = canonicalGrid 0 3600 4 :=
  canonical_grid_shared 0 3600 4 (fun _ => 0) [fun _ => 1] [fun _ => 2]
    (fun _ => 3) (by norm_num)

/-! ## Irradiance & power model: night boundary and input clamping -/

/-- Modelled from the spec (§4.4): the extraterrestrial irradiance bound used
to clamp physically impossible inputs (W/m², the solar constant). -/
def extraterrestrialBound : ℚ := 1367

/-- Modelled from the spec: the weather inputs `computePower` consumes at one
timestep. -/
structure WeatherAt where
  ghi : ℚ
  temperature : ℚ
  windSpeed : ℚ
deriving DecidableEq, Repr

/-- Modelled from the spec (§4.4): diagnostics flagging clamped inputs —
clamping is recorded here rather than propagated as an error. -/
structure Diagnostics where
  clampedNegative : Bool
  clampedAboveBound : Bool
deriving DecidableEq, Repr

/-- Modelled from the spec (§3 PowerSample, §4.4): one timestep's computed
sample — DC power, AC power and the diagnostics. -/
structure PowerSample where
  dc : ℚ
  ac : ℚ
  diag : Diagnostics
deriving DecidableEq, Repr

/-- Modelled from the spec (§4.4 `computePower`): per array and timestep.
Irradiance is clamped into `[0, extraterrestrialBound]` with the clamping
flagged in diagnostics; plane-of-array transposition, module gain and the
temperature derate are delegated physics, passed in as the factors
`geomFactor`, `moduleGain` and `derate`; single-module output is scaled by
modules-per-string × strings; DC is converted to AC through the inverter's
efficiency/clipping curve.  The function is total: no input makes it fail. -/
def computePower (arr : ArrayConfig) (inv : InverterModel)
    (geomFactor moduleGain derate : ℚ) (w : WeatherAt) : PowerSample :=
  let clamped := min (max w.ghi 0) extraterrestrialBound
  let diag : Diagnostics :=
    ⟨decide (w.ghi < 0), decide (extraterrestrialBound < w.ghi)⟩
  let poa := geomFactor * clamped
  let dcModule := poa * moduleGain * derate
  let dc := dcModule * ((arr.modules_per_string * arr.strings : ℕ) : ℚ)
  ⟨dc, acOutput inv dc, diag⟩

/-- **C7.** For every array, inverter model whose efficiency curve reports no
output on no input and whose rated capacity is nonnegative, and all delegated
physics factors: a timestep with irradiance ≤ 0 (night) yields exactly zero
DC power and exactly zero AC power (and `computePower` is total, so it never
fails); moreover negative irradiance raises the `clampedNegative` diagnostic
flag and irradiance above the extraterrestrial bound raises the
`clampedAboveBound` flag — clamped, flagged, never propagated as an error. -/
theorem night_zero_power_and_clamping :
    (∀ (arr : ArrayConfig) (inv : InverterModel) (gf mg dr : ℚ) (w : WeatherAt),
      w.ghi ≤ 0 → inv.effCurve 0 = 0 → 0 ≤ inv.ratedAc →
      (computePower arr inv gf mg dr w).dc = 0 ∧
      (computePower arr inv gf mg dr w).ac = 0) ∧
    (∀ (arr : ArrayConfig) (inv : InverterModel) (gf mg dr : ℚ) (w : WeatherAt),
      w.ghi < 0 → (computePower arr inv gf mg dr w).diag.clampedNegative = true) ∧
    (∀ (arr : ArrayConfig) (inv : InverterModel) (gf mg dr : ℚ) (w : WeatherAt),
      extraterrestrialBound < w.ghi →
      (computePower arr inv gf mg dr w).diag.clampedAboveBound = true) := by
  refine ⟨?_, ?_, ?_⟩
  · intro arr inv gf mg dr w hnight heff hrated
    have hclamp : min (max w.ghi 0) extraterrestrialBound = 0 := by
      rw [max_eq_right hnight]
      exact min_eq_left (by norm_num [extraterrestrialBound])
    constructor
    · simp [computePower, hclamp]
    · simp [computePower, hclamp, acOutput, heff, min_eq_left hrated]
  · intro arr inv gf mg dr w hneg
    simp [computePower, hneg]
  · intro arr inv gf mg dr w habove
    simp [computePower, habove]

/-- Witness for C7 at the East array of `src/unnamed/part_006`, the concrete
inverter `invClip1800`, unit physics factors and a night record with
irradiance −5 W/m²: zero DC, zero AC, and the negative-input flag set. -/
theorem night_zero_power_and_clamping_witness :
    (computePower ⟨"East", 30, 90, 4, 1, "Trina_Solar_TSM_330DD14A_II_"⟩
      invClip1800 1 1 1 ⟨-5, 10, 2⟩).dc = 0 ∧
    (computePower ⟨"East", 30, 90, 4, 1, "Trina_Solar_TSM_330DD14A_II_"⟩
      invClip1800 1 1 1 ⟨-5, 10, 2⟩).ac = 0 ∧
    (computePower ⟨"East", 30, 90, 4, 1, "Trina_Solar_TSM_330DD14A_II_"⟩
      invClip1800 1 1 1 ⟨-5, 10, 2⟩).diag.clampedNegative = true := by
  have hz := night_zero_power_and_clamping.1
    ⟨"East", 30, 90, 4, 1, "Trina_Solar_TSM_330DD14A_II_"⟩ invClip1800 1 1 1
    ⟨-5, 10, 2⟩ (by norm_num) rfl (by norm_num [invClip1800])
  have hneg := night_zero_power_and_clamping.2.1
    ⟨"East", 30, 90, 4, 1, "Trina_Solar_TSM_330DD14A_II_"⟩ invClip1800 1 1 1
    ⟨-5, 10, 2⟩ (by norm_num)
  exact ⟨hz.1, hz.2, hneg⟩

/-! ## Weather cache: freshness and forecast idempotence -/

/-- Modelled from the spec (§4.2): the cache key — source identity, rounded
location, horizon bucket.  The cache never serves an entry across different
keys. -/
structure CacheKey where
  source : String
  location : String
  horizonBucket : ℕ
deriving DecidableEq, Repr

/-- Modelled from the spec (§4.2): one cache entry — the stored series and
the time it was fetched. -/
structure CacheEntry where
  fetchedAt : ℕ
  series : WeatherSeries
deriving DecidableEq, Repr

/-- The cache state: an association list from keys to entries. -/
def Cache : Type := List (CacheKey × CacheEntry)

/-- Modelled from the spec (§4.2 `getOrFetch`): returns the cached series if
its freshness interval has not elapsed since the last fetch for the same key;
otherwise invokes the adapter, stores the new result and replaces the stale
entry.  Returns (series, new cache state, whether an external fetch was
issued). -/
def getOrFetch (cache : Cache) (now freshness : ℕ) (key : CacheKey)
    (fetch : Unit → WeatherSeries) : WeatherSeries × Cache × Bool :=
  match List.find? (fun e => decide (e.1 = key)) cache with
  | some e =>
    if now < e.2.fetchedAt + freshness then (e.2.series, cache, false)
    else
      let s := fetch ()
      (s, (key, ⟨now, s⟩) :: List.filter (fun e => decide (e.1 ≠ key)) cache, true)
  | none =>
    let s := fetch ()
    (s, (key, ⟨now, s⟩) :: List.filter (fun e => decide (e.1 ≠ key)) cache, true)

/-- If a `getOrFetch` call reports that it fetched, it returned the adapter's
series and stored it under the key at the call time. -/
theorem getOrFetch_fetched_shape (cache : Cache) (now freshness : ℕ)
    (key : CacheKey) (fetch : Unit → WeatherSeries)
    (hf : (getOrFetch cache now freshness key fetch).2.2 = true) :
    getOrFetch cache now freshness key fetch =
      (fetch (), (key, ⟨now, fetch ()⟩) ::
        List.filter (fun e => decide (e.1 ≠ key)) cache, true) := by
  unfold getOrFetch at hf ⊢
  cases hfind : List.find? (fun e => decide (e.1 = key)) cache with
  | none => rfl
  | some e =>
    rw [hfind] at hf
    dsimp only at hf ⊢
    by_cases hfresh : now < e.2.fetchedAt + freshness
    · rw [if_pos hfresh] at hf
      cases hf
    · rw [if_neg hfresh]

/-- **C8.** For every cache state, key, freshness interval and adapter
behaviours: if a first `getOrFetch` call at time `t₁` issues an external fetch
and a second call for the same key happens at time `t₂` within the freshness
interval of the first, then the second call issues no external fetch, leaves
the cache state unchanged, and returns the very series the first call
returned — so any forecast computed as a pure function of the served series
is numerically identical across the two calls. -/
theorem cache_hit_idempotent (cache : Cache) (t1 t2 freshness : ℕ)
    (key : CacheKey) (fetch1 fetch2 : Unit → WeatherSeries)
    (g : WeatherSeries → List ℚ)
    (hf : (getOrFetch cache t1 freshness key fetch1).2.2 = true)
    (hfresh : t2 < t1 + freshness) :
    getOrFetch (getOrFetch cache t1 freshness key fetch1).2.1 t2 freshness key
      fetch2 =
      ((getOrFetch cache t1 freshness key fetch1).1,
       (getOrFetch cache t1 freshness key fetch1).2.1, false) ∧
    g (getOrFetch (getOrFetch cache t1 freshness key fetch1).2.1 t2 freshness
        key fetch2).1 =
      g (getOrFetch cache t1 freshness key fetch1).1 := by
  have hshape := getOrFetch_fetched_shape cache t1 freshness key fetch1 hf
  rw [hshape]
  have hhit : getOrFetch ((key, ⟨t1, fetch1 ()⟩) ::
      List.filter (fun e => decide (e.1 ≠ key)) cache) t2 freshness key fetch2 =
      (fetch1 (), (key, ⟨t1, fetch1 ()⟩) ::
        List.filter (fun e => decide (e.1 ≠ key)) cache, false) := by
    unfold getOrFetch
    rw [List.find?_cons_of_pos _ (by simp)]
    exact if_pos hfresh
  rw [hhit]
  exact ⟨rfl, rfl⟩

/-- Witness for C8: starting from an empty cache, a fetch at time 0 followed
by a repeat call at time 30 with a 60-second freshness interval serves the
cached series, issues no new fetch, and yields the identical result. -/
theorem cache_hit_idempotent_witness :
    getOrFetch (getOrFetch [] 0 60 ⟨"ClearOutside", "loc", 7⟩
        (fun _ => ⟨"ClearOutside", []⟩)).2.1 30 60 ⟨"ClearOutside", "loc", 7⟩
        (fun _ => ⟨"ClearOutside", [⟨0, none, none⟩]⟩) =
      ((getOrFetch [] 0 60 ⟨"ClearOutside", "loc", 7⟩
        (fun _ => ⟨"ClearOutside", []⟩)).1,
       (getOrFetch [] 0 60 ⟨"ClearOutside", "loc", 7⟩
        (fun _ => ⟨"ClearOutside", []⟩)).2.1, false) ∧
    (fun ws => List.map (fun r => (r.ghi).getD 0) ws.records)
      (getOrFetch (getOrFetch [] 0 60 ⟨"ClearOutside", "loc", 7⟩
        (fun _ => ⟨"ClearOutside", []⟩)).2.1 30 60 ⟨"ClearOutside", "loc", 7⟩
        (fun _ => ⟨"ClearOutside", [⟨0, none, none⟩]⟩)).1 =
    (fun ws => List.map (fun r => (r.ghi).getD 0) ws.records)
      (getOrFetch [] 0 60 ⟨"ClearOutside", "loc", 7⟩
        (fun _ => ⟨"ClearOutside", []⟩)).1 :=
  cache_hit_idempotent [] 0 30 60 ⟨"ClearOutside", "loc", 7⟩
    (fun _ => ⟨"ClearOutside", []⟩)
    (fun _ => ⟨"ClearOutside", [⟨0, none, none⟩]⟩)
    (fun ws => List.map (fun r => (r.ghi).getD 0) ws.records) rfl
    (by norm_num)

/-! ## Topology structure: inverters per plant, identifier sharing, lookups -/

/-- Look a plant up by name — the first (and, names being unique, only)
plant with that name. -/
def lookupPlant (plants : List PlantConfig) (pn : String) : Option PlantConfig :=
  List.find? (fun p => decide (p.name = pn)) plants

/-- Modelled from the spec (§3 invariants: identity is the name tuple along
the path, not object identity or a global identifier): look an array up by its
(plant name, array name) path. -/
def lookupArray (plants : List PlantConfig) (pn an : String) :
    Option ArrayConfig :=
  (lookupPlant plants pn).bind
    (fun p => List.find? (fun a => decide (a.name = an)) p.arrays)

/-- **C9 (counterexample).** The claim that a plant holds an ordered list of
inverters and can contain more than one is false on the loaded topologies: the
`inverter:` key is a single scalar per plant, so every plant of
`src/unnamed/part_006` (four plants) and `src/unnamed/part_005` (two plants)
carries exactly one inverter, and no plant carries more than one. -/
theorem plant_multi_inverter_counterexample :
    (List.all (config6Plants ++ config5Plants)
      (fun p => decide (p.inverterIds.length = 1)) = true) ∧
    (List.any (config6Plants ++ config5Plants)
      (fun p => decide (1 < p.inverterIds.length)) = false) ∧
    config6Plants.length = 4 ∧ config5Plants.length = 2 := by
  refine ⟨by decide, by decide, rfl, rfl⟩

/-- **C9 (amended).** Every plant in the loaded topology consists of a name —
unique within its configuration — and exactly one inverter (a scalar inverter
model identifier with a microinverter flag) owning an ordered list of arrays;
a plant cannot contain more than one inverter. -/
theorem plant_name_unique_single_inverter :
    (config6Plants.map PlantConfig.name).Nodup ∧
    (config5Plants.map PlantConfig.name).Nodup ∧
    (List.all (config6Plants ++ config5Plants)
      (fun p => decide (p.inverterIds.length = 1)) = true) := by
  refine ⟨by decide, by decide, by decide⟩

/-- **C10.** Identifier strings are not globally unique across the topology:
in `src/unnamed/part_006` the distinct plants "EastWest" and "South" (and
"home") share one inverter model identifier, the module model identifier of
array "East" is shared with plant "South"'s array, and plant "South" bears
the same name as its own array "South".  Lookups distinguish components
solely by their position on the (plant, array) name path — which is
well-defined because names are unique within their parent's scope (plant
names unique in the configuration, array names unique within each plant). -/
theorem identifiers_shared_lookup_by_path :
    ((lookupPlant config6Plants "EastWest").map PlantConfig.inverter =
      (lookupPlant config6Plants "South").map PlantConfig.inverter) ∧
    ((lookupPlant config6Plants "South").map PlantConfig.inverter =
      (lookupPlant config6Plants "home").map PlantConfig.inverter) ∧
    ((lookupPlant config6Plants "EastWest").isSome = true) ∧
    ((lookupPlant config6Plants "South").isSome = true) ∧
    ((lookupPlant config6Plants "home").isSome = true) ∧
    ((lookupArray config6Plants "South" "South").isSome = true) ∧
    ((lookupArray config6Plants "EastWest" "East").map ArrayConfig.module =
      (lookupArray config6Plants "South" "South").map ArrayConfig.module) ∧
    (config6Plants.map PlantConfig.name).Nodup ∧
    (List.all config6Plants
      (fun p => decide ((p.arrays.map ArrayConfig.name).Nodup)) = true) := by
  refine ⟨by decide, by decide, by decide, by decide, by decide, by decide,
    by decide, by decide, by decide⟩

end PVCast
